import Mathlib

/-!
Shallow embedding of the `boxops/nautobot_jobs` repository.

The embedding covers:
* `jobs/example_ssot_data_target.py` (namespace `DT`): the VLAN model, the remote
  HTTP adapter (`load`, `_get_api_data`, `post`, `patch`, `delete`), and the
  remote CRUD methods of `VLANRemoteModel`;
* `jobs/example_ssot.py` (namespace `ES`): the VLAN model, the pynetbox-backed
  remote adapter's `load`, and `init_api`;
* `jobs/get_version.py` (namespace `GV`): the show-version collector, its
  pattern table, the regex search (each pattern is a literal followed by a
  single greedy non-space capture), and the upsert into the Nautobot tables;
* namespace `Apply`: the apply loop of the diffsync engine, which is library
  code not contained in this repository, modelled from the specification.
-/

/-- JSON-ish values sent in HTTP request bodies. -/
inductive JValue where
  | str : String → JValue
  | num : Int → JValue
  | null : JValue
deriving DecidableEq, Repr

/-- Projection of a Python `Optional[str]` into a JSON value (`None` becomes `null`). -/
def jOpt : Option String → JValue
  | some s => JValue.str s
  | none => JValue.null

/-- First value bound to a key in an association-list JSON object. -/
def lookupKey (k : String) : List (String × JValue) → Option JValue
  | [] => none
  | (k2, v) :: rest => if k2 = k then some v else lookupKey k rest

/-- Python string interpolation of an `Optional[str]`: `None` prints as `"None"`. -/
def pyStrOpt : Option String → String
  | some s => s
  | none => "None"

/-- An HTTP request as constructed by the `requests` calls in the source:
method, full URL, headers, optional JSON body, optional timeout, and the
`verify` flag controlling TLS certificate verification. -/
structure HttpRequest where
  method : String
  url : String
  headers : List (String × String)
  body : Option (List (String × JValue))
  timeout : Option Nat
  verify : Bool
deriving DecidableEq, Repr

/-- `Response.raise_for_status` of the `requests` library: raises `HTTPError`
exactly for status codes 400–599. -/
def raise_for_status (status : Nat) : Except Nat Unit :=
  if 400 ≤ status ∧ status < 600 then Except.error status else Except.ok ()

namespace DT

/-- A VLAN group object nested in a decoded item. -/
structure Group where
  name : String
deriving DecidableEq, Repr

/-- One decoded item of a page of `GET /api/ipam/vlans/`. The `status` field is
present on the wire but, as the source shows, ignored by `load`. -/
structure Item where
  vid : Int
  name : String
  status : String
  group : Option Group
  description : Option String
deriving DecidableEq, Repr

/-- One page of the paginated remote collection: the `results` list plus the
optional next-page pointer. -/
structure Page where
  results : List Item
  next : Option String
deriving DecidableEq, Repr

def emptyPage : Page := { results := [], next := none }

/-- Every item the remote collection holds at load time: the items of all pages. -/
def allItems (pages : List Page) : List Item :=
  (pages.map Page.results).flatten

/-- `VLANModel` of `example_ssot_data_target.py`: identifiers
`(vid, name, vlan_group__name)`, attributes `(description, status__name)`;
`pk` is inherited from `NautobotModel` and defaults to `None`. -/
structure VLANModel where
  vid : Int
  name : String
  status__name : String
  vlan_group__name : Option String := none
  description : Option String := none
  pk : Option String := none
deriving DecidableEq, Repr

/-- The natural key formed by the declared identifier fields. -/
def VLANModel.identityKey (r : VLANModel) : Int × String × Option String :=
  (r.vid, r.name, r.vlan_group__name)

/-- The declared default of the optional `vlan_group__name` field
(`vlan_group__name: Optional[str] = None`). -/
def VLANModel.default_vlan_group__name : Option String := none

/-- Body of the `for` loop of `MySSoTRemoteAdapter.load`: `status__name` is the
constant `"active"` (the remote `item["status"]` is ignored), the group name is
`item["group"]["name"]` when a group is present, else `None`; `pk` is not passed
and keeps its default. -/
def loadItem (item : Item) : VLANModel :=
  { vid := item.vid
    name := item.name
    status__name := "active"
    vlan_group__name := match item.group with
      | some g => some g.name
      | none => none
    description := item.description }

/-- `DiffSync.add` as specified in §4.2: adding a second record with an identical
identity key is a duplicate-identity error. Modelled from the spec: the DiffSync
store lives in the diffsync library, not in `src`. -/
def add (snap : List VLANModel) (r : VLANModel) : Except String (List VLANModel) :=
  if snap.any (fun s => s.identityKey = r.identityKey) then
    Except.error "ObjectAlreadyExists"
  else Except.ok (snap ++ [r])

/-- The `for item in self._get_api_data(): self.add(self.vlan(...))` loop. -/
def addAll : List VLANModel → List Item → Except String (List VLANModel)
  | snap, [] => Except.ok snap
  | snap, item :: rest =>
    match add snap (loadItem item) with
    | Except.ok snap2 => addAll snap2 rest
    | Except.error e => Except.error e

/-- Headers set in `MySSoTRemoteAdapter.__init__`: the token in the
`Authorization` header, plus the JSON accept header. -/
def apiHeaders (token : String) : List (String × String) :=
  [("Authorization", "Token " ++ token), ("Accept", "application/json")]

/-- The request issued by `_get_api_data`: a single GET of the collection URL
with `verify=False` and no timeout. -/
def getRequest (url token : String) : HttpRequest :=
  { method := "GET", url := url ++ "/api/ipam/vlans/", headers := apiHeaders token,
    body := none, timeout := none, verify := false }

/-- `_get_api_data`: one GET of `<url>/api/ipam/vlans/`, returning `data["results"]`
of that single response; `data["next"]` is never consulted. The page list models
the successive pages the server would serve. -/
def get_api_data (pages : List Page) : List Item :=
  (pages.headD emptyPage).results

/-- `MySSoTRemoteAdapter.load`: adds one record per item returned by
`_get_api_data`. -/
def load (pages : List Page) : Except String (List VLANModel) :=
  addAll [] (get_api_data pages)

/-- The request issued by `MySSoTRemoteAdapter.post`. -/
def postRequest (url token path : String) (data : List (String × JValue)) : HttpRequest :=
  { method := "POST", url := url ++ path, headers := apiHeaders token,
    body := some data, timeout := some 60, verify := false }

/-- The request issued by `MySSoTRemoteAdapter.patch`. -/
def patchRequest (url token path : String) (data : List (String × JValue)) : HttpRequest :=
  { method := "PATCH", url := url ++ path, headers := apiHeaders token,
    body := some data, timeout := some 60, verify := false }

/-- The request issued by `MySSoTRemoteAdapter.delete`. -/
def deleteRequest (url token path : String) : HttpRequest :=
  { method := "DELETE", url := url ++ path, headers := apiHeaders token,
    body := none, timeout := some 60, verify := false }

/-- `MySSoTRemoteAdapter.post`: a single POST followed by `raise_for_status`;
there is no retry loop. `server` gives the status code the remote answers with;
the first component lists the requests actually issued. -/
def post (url token path : String) (data : List (String × JValue))
    (server : HttpRequest → Nat) : List HttpRequest × Except Nat Unit :=
  let req := postRequest url token path data
  ([req], raise_for_status (server req))

/-- `MySSoTRemoteAdapter.patch`: a single PATCH followed by `raise_for_status`. -/
def patch (url token path : String) (data : List (String × JValue))
    (server : HttpRequest → Nat) : List HttpRequest × Except Nat Unit :=
  let req := patchRequest url token path data
  ([req], raise_for_status (server req))

/-- `MySSoTRemoteAdapter.delete`: a single DELETE followed by `raise_for_status`. -/
def delete (url token path : String)
    (server : HttpRequest → Nat) : List HttpRequest × Except Nat Unit :=
  let req := deleteRequest url token path
  ([req], raise_for_status (server req))

/-- The `ids` dict diffsync passes to `create`: the declared identifier fields. -/
structure CreateIds where
  vid : Int
  name : String
  vlan_group__name : Option String
deriving DecidableEq, Repr

/-- The `attrs` dict diffsync passes to `create`. `vlan_group__name` is kept as a
field because the code reads `attrs.get("vlan_group__name", None)`, although the
engine only populates the declared attribute fields, so it is always `None`. -/
structure CreateAttrs where
  status__name : String
  description : Option String
  vlan_group__name : Option String := none
deriving DecidableEq, Repr

/-- The changed-attributes dict diffsync passes to `update`: the outer `Option`
is presence of the key in the dict, the inner value is the new value. -/
structure UpdateAttrs where
  description : Option (Option String) := none
  status__name : Option String := none
deriving DecidableEq, Repr

/-- Body of the POST issued by `VLANRemoteModel.create`: identifiers plus all
attributes, with `status` lowercased. -/
def VLANRemoteModel.createBody (ids : CreateIds) (attrs : CreateAttrs) :
    List (String × JValue) :=
  [("vid", JValue.num ids.vid),
   ("name", JValue.str ids.name),
   ("status", JValue.str attrs.status__name.toLower),
   ("group__name", jOpt attrs.vlan_group__name),
   ("description", jOpt attrs.description)]

/-- Body of the PATCH issued by `VLANRemoteModel.update`: `description` and
`status` are included exactly when the corresponding key is in `attrs`; the
`status` value is sent unmodified. -/
def VLANRemoteModel.updateBody (attrs : UpdateAttrs) : List (String × JValue) :=
  (match attrs.description with
   | some v => [("description", jOpt v)]
   | none => []) ++
  (match attrs.status__name with
   | some s => [("status", JValue.str s)]
   | none => [])

/-- URL path used by `VLANRemoteModel.update` and `delete`: an f-string built
from `self.pk`. -/
def VLANRemoteModel.crudPath (pk : Option String) : String :=
  "/api/ipam/vlans/" ++ pyStrOpt pk ++ "/"

/-- The remote id returned in the body of a successful POST (spec §6: success
returns the created item including an internal id used as the handle). -/
structure PostResponse where
  id : String
deriving DecidableEq, Repr

/-- State of one apply pass: the requests issued so far and the handle cache
that spec §4.4 requires ("After issuing a create, the returned handle must be
cached by identity key"). -/
structure ApplyPassState where
  issued : List HttpRequest
  handleCache : List ((Int × String × Option String) × String)
deriving DecidableEq, Repr

def emptyPass : ApplyPassState := { issued := [], handleCache := [] }

/-- `VLANRemoteModel.create`: issues the POST and then returns
`super().create(...)`; the response — which carries the remote id — is
discarded, so nothing is added to the handle cache. -/
def VLANRemoteModel.create (url token : String) (ids : CreateIds)
    (attrs : CreateAttrs) (st : ApplyPassState) (resp : PostResponse) :
    ApplyPassState :=
  { st with issued :=
      st.issued ++ [postRequest url token "/api/ipam/vlans/"
        (VLANRemoteModel.createBody ids attrs)] }

/-- Modelled from the spec: the diff engine (the diffsync library, which is not
in `src`) compares the declared attribute fields field-by-field (§4.3) and
reports the names of the differing fields. -/
def changedAttrs (src tgt : VLANModel) : List String :=
  (if src.description = tgt.description then [] else ["description"]) ++
  (if src.status__name = tgt.status__name then [] else ["status__name"])

end DT

namespace ES

/-- A VLAN group object as returned by the pynetbox client. -/
structure Group where
  name : String
deriving DecidableEq, Repr

/-- A VLAN object yielded by `api_client.ipam.vlans.all()` in `load`. -/
structure RemoteVlan where
  vid : Int
  group : Option Group
  description : Option String
deriving DecidableEq, Repr

/-- `VLANModel` of `example_ssot.py`: identifiers `(vid, group__name)`,
attribute `description`. -/
structure VLANModel where
  vid : Int
  group__name : Option String := none
  description : Option String := none
deriving DecidableEq, Repr

/-- The declared default of the optional `group__name` field
(`group__name: Optional[str] = None`). -/
def VLANModel.default_group__name : Option String := none

/-- Loop body of `MySSoTRemoteAdapter.load` of `example_ssot.py`:
`group_name = vlan.group.name if vlan.group else None`. -/
def loadVlan (v : RemoteVlan) : VLANModel :=
  { vid := v.vid
    group__name := match v.group with
      | some g => some g.name
      | none => none
    description := v.description }

/-- Configuration produced by `ExampleDataSource.init_api`: hard-coded url and
token, and `netbox.http_session.verify = False`. -/
structure ApiConfig where
  url : String
  token : String
  verify : Bool
deriving DecidableEq, Repr

def init_api : ApiConfig :=
  { url := "https://example.com"
    token := "aaaaaaaaaaaaaaaaaaaaaaaaaaaaaaaaaaaaaaaaa"
    verify := false }

end ES

namespace Apply

/-- The three operation kinds of a ChangeSet entry. -/
inductive OpKind where
  | createOp
  | updateOp
  | deleteOp
deriving DecidableEq, Repr

/-- One operation of a ChangeSet: its identity key, its kind, and (for updates)
the changed attributes. -/
structure SyncOp where
  key : Int × String × Option String
  kind : OpKind
  attrs : DT.UpdateAttrs := {}
deriving DecidableEq, Repr

/-- A recorded apply failure: identity key, operation attempted, and the error
kind (the HTTP status raised by the adapter's request helpers). -/
structure ApplyFailure where
  key : Int × String × Option String
  kind : OpKind
  status : Nat
deriving DecidableEq, Repr

/-- Modelled from the spec: the apply loop of the diffsync engine is library
code not contained in this repository. Spec §4.4: "Each operation is applied
independently: a failure on one record's create/update/delete is caught,
recorded into `SyncResult.failures`, and does not abort remaining operations in
the ChangeSet." `server` gives the HTTP status the remote answers to an
operation's request (the request itself is built and raised by the `DT` helpers
through `raise_for_status`); successfully applied operations accumulate in the
first component, recorded failures in the second. -/
def applyChangeSet (server : SyncOp → Nat) :
    List SyncOp → List SyncOp × List ApplyFailure
  | [] => ([], [])
  | op :: rest =>
    let tail := applyChangeSet server rest
    match raise_for_status (server op) with
    | Except.ok _ => (op :: tail.1, tail.2)
    | Except.error st => (tail.1, { key := op.key, kind := op.kind, status := st } :: tail.2)

end Apply

namespace GV

/-- Python's regex `\s` character class. -/
def isSpaceChar (c : Char) : Bool :=
  c == ' ' || c == '\t' || c == '\n' || c == '\r' || c == '\x0b' || c == '\x0c'

/-- Match a literal at the front of the input; on success return the remainder. -/
def matchLit : List Char → List Char → Option (List Char)
  | [], rest => some rest
  | _ :: _, [] => none
  | p :: ps, c :: cs => if c = p then matchLit ps cs else none

/-- The maximal run of non-space characters at the front of the input
(the greedy `\S+`, with nothing after the group in any of the patterns). -/
def takeNonSpace : List Char → List Char
  | [] => []
  | c :: cs => if isSpaceChar c then [] else c :: takeNonSpace cs

/-- Matching a pattern of the shape `<lit>(\S+)` at the start of `s`: the
literal must match and at least one non-space character must follow; the
capture group is the maximal non-space run. -/
def matchAt (lit s : List Char) : Option (List Char) :=
  match matchLit lit s with
  | some rest =>
    match takeNonSpace rest with
    | [] => none
    | c :: cs => some (c :: cs)
  | none => none

/-- `re.search` for a pattern of the shape `<lit>(\S+)`: the leftmost position
where the whole pattern matches, returning the capture group. -/
def searchCapture (lit : List Char) : List Char → Option (List Char)
  | [] => matchAt lit []
  | c :: cs =>
    match matchAt lit (c :: cs) with
    | some cap => some cap
    | none => searchCapture lit cs

/-- Python `str.strip(",")`: commas removed from both ends. -/
def stripComma (s : List Char) : List Char :=
  ((s.dropWhile (fun c => c == ',')).reverse.dropWhile (fun c => c == ',')).reverse

/-- `self.supported_drivers` of `OnboardVersion.__init__`. -/
def supported_drivers : List String := ["keymile_nos", "cisco_xr", "cisco_ios"]

/-- The `show_version_commands` dict (`dict.get` semantics). -/
def show_version_commands (platform : String) : Option String :=
  if platform = "arista_eos" then some "show version"
  else if platform = "keymile_nos" then some "show version"
  else if platform = "cisco_xr" then some "show version"
  else if platform = "cisco_ios" then some "show version | inc Cisco IOS Software"
  else none

/-- The literal part of each entry of the `patterns` dict; every pattern in the
table is that literal followed by a single `(\S+)` capture group. -/
def patternLitOf (platform : String) : Option String :=
  if platform = "arista_eos" then some "Software image version: "
  else if platform = "keymile_nos" then some "NOS version "
  else if platform = "cisco_xr" then some "Cisco IOS XR Software, Version "
  else if platform = "cisco_ios" then some "Version "
  else none

/-- The full regex text of a `patterns` entry, used in the parse-failure message. -/
def patternTextOf (platform : String) : Option String :=
  (patternLitOf platform).map (fun lit => lit ++ "(\\S+)")

/-- Everything about one selected device that the job observes: its Nautobot id,
name, `platform.network_driver`, `primary_ip.host`, whether the ping probe
succeeds, and the text the show-version command returns over the session. -/
structure Device where
  id : Nat
  name : String
  platform : String
  ip : String
  reachable : Bool
  output : String
deriving DecidableEq, Repr

/-- The platform check of `OnboardVersion.__init__`: raises for a platform not
in `supported_drivers`. -/
def checkPlatform (d : Device) : Except String Unit :=
  if d.platform ∈ supported_drivers then Except.ok ()
  else Except.error ("Device " ++ d.name ++ " with platform " ++ d.platform ++
    " is not supported")

/-- `OnboardVersion.get_version`: the ping probe raises for an unreachable
device; otherwise the show-version command's output is captured. -/
def get_version (d : Device) : Except String String :=
  if d.reachable then Except.ok d.output
  else Except.error ("Device with IP " ++ d.ip ++ " is unreachable")

/-- `OnboardVersion.parse_version`: `re.search` of the platform's pattern over
the raw output, then `strip(",")` of the capture; raises when the pattern is
not found. -/
def parse_version (platform raw : String) : Except String String :=
  match patternLitOf platform with
  | none => Except.error "TypeError: pattern is None"
  | some lit =>
    match searchCapture lit.data raw.data with
    | some cap => Except.ok (String.mk (stripComma cap))
    | none =>
      Except.error ("Could not parse, pattern not found in the input string: " ++
        pyStrOpt (patternTextOf platform))

/-- A `SoftwareLCM` row: internal id, version string, platform. -/
structure SoftwareLCM where
  id : Nat
  version : String
  device_platform : String
deriving DecidableEq, Repr

/-- The Nautobot tables the job touches: the software rows, the id sequence for
new rows, and the "Software on Device" relationship associations as
(software id, device id) pairs. -/
structure NautobotDB where
  softwares : List SoftwareLCM
  nextId : Nat
  assocs : List (Nat × Nat)
deriving DecidableEq, Repr

/-- `OnboardVersion.import_to_nautobot`: reuse the existing row whose version
equals the parsed version when one exists, else create a new row; returns the
database and the row's id. -/
def import_to_nautobot (db : NautobotDB) (parsed_version platform : String) :
    NautobotDB × Nat :=
  match db.softwares.find? (fun s => s.version == parsed_version) with
  | some s => (db, s.id)
  | none =>
    ({ softwares := db.softwares ++
         [{ id := db.nextId, version := parsed_version, device_platform := platform }],
       nextId := db.nextId + 1,
       assocs := db.assocs }, db.nextId)

/-- `OnboardVersion.assign_to_device`: create the software-to-device
association only when it does not already exist. -/
def assign_to_device (db : NautobotDB) (softwareId deviceId : Nat) : NautobotDB :=
  if (softwareId, deviceId) ∈ db.assocs then db
  else { db with assocs := db.assocs ++ [(softwareId, deviceId)] }

/-- The recording tail of `OnboardVersion.execute`: upsert the row, then the
association. -/
def recordVersion (db : NautobotDB) (parsed_version platform : String)
    (deviceId : Nat) : NautobotDB :=
  let r := import_to_nautobot db parsed_version platform
  assign_to_device r.1 r.2 deviceId

/-- `OnboardVersion(device).execute()` for one device, acting on the database;
any raised exception propagates. -/
def processDevice (db : NautobotDB) (d : Device) : Except String NautobotDB :=
  match checkPlatform d with
  | Except.error e => Except.error e
  | Except.ok _ =>
    match get_version d with
    | Except.error e => Except.error e
    | Except.ok raw =>
      match parse_version d.platform raw with
      | Except.error e => Except.error e
      | Except.ok v => Except.ok (recordVersion db v d.platform d.id)

/-- The outcome of one device (the parsed version or the raised message); it
does not depend on the database. -/
def deviceResult (d : Device) : Except String String :=
  match checkPlatform d with
  | Except.error e => Except.error e
  | Except.ok _ =>
    match get_version d with
    | Except.error e => Except.error e
    | Except.ok raw => parse_version d.platform raw

/-- The database effect of one successfully processed device. -/
def applyDevice (db : NautobotDB) (d : Device) : NautobotDB :=
  match deviceResult d with
  | Except.ok v => recordVersion db v d.platform d.id
  | Except.error _ => db

/-- The message a failing device raises. -/
def errMsgOf (d : Device) : String :=
  match deviceResult d with
  | Except.error e => e
  | Except.ok _ => ""

/-- The loop of `GetShowVersion.run`: `for device in devices: OnboardVersion(device).execute()`
— strictly sequential, with no exception handling, so the first raised exception
aborts the run; the error carries the database as of the abort. -/
def runJob : NautobotDB → List Device → Except (NautobotDB × String) NautobotDB
  | db, [] => Except.ok db
  | db, d :: rest =>
    match processDevice db d with
    | Except.ok db2 => runJob db2 rest
    | Except.error e => Except.error (db, e)

/-- Whether an `Except` value is a success. -/
def isOkE {ε α : Type} : Except ε α → Bool
  | Except.ok _ => true
  | Except.error _ => false

end GV

/-! Concrete inputs used by the counterexamples and witnesses. -/

/-- A first-page item: no group, a description. -/
def exItem1 : DT.Item :=
  { vid := 10, name := "ten", status := "reserved", group := none,
    description := some "first" }

/-- A second-page item with a different identity key. -/
def exItem2 : DT.Item :=
  { vid := 20, name := "twenty", status := "active", group := some { name := "eng" },
    description := none }

/-- A two-page remote collection: the first page points at a second page that
holds a further item. -/
def exPages : List DT.Page :=
  [{ results := [exItem1], next := some "https://10.1.1.1/api/ipam/vlans/?offset=50" },
   { results := [exItem2], next := none }]

/-- The default token of the data-target job form (`"a" * 40`). -/
def defaultToken : String := "aaaaaaaaaaaaaaaaaaaaaaaaaaaaaaaaaaaaaaaa"

/-- Shared shape lemma: a successful `addAll` run appends exactly one projected
record per item, in order. -/
theorem addAll_ok_shape (items : List DT.Item) :
    ∀ snap out, DT.addAll snap items = Except.ok out →
      out = snap ++ items.map DT.loadItem := by
  induction items with
  | nil =>
    intro snap out h
    simp only [DT.addAll] at h
    cases h
    simp
  | cons item rest ih =>
    intro snap out h
    simp only [DT.addAll] at h
    cases ha : DT.add snap (DT.loadItem item) with
    | error e => rw [ha] at h; cases h
    | ok snap2 =>
      rw [ha] at h
      have hsnap2 : snap2 = snap ++ [DT.loadItem item] := by
        unfold DT.add at ha
        split at ha
        · cases ha
        · cases ha; rfl
      have := ih snap2 out h
      simp [this, hsnap2]

/-- C1 counterexample: on a two-page collection the snapshot produced by `load`
holds only the first page's record; the item of the second page is in the
collection but has no record — the next-page cursor is never followed. -/
theorem c1_counterexample :
    DT.load exPages = Except.ok [DT.loadItem exItem1] ∧
    exItem2 ∈ DT.allItems exPages ∧
    DT.loadItem exItem2 ∉ [DT.loadItem exItem1] := by
  refine ⟨rfl, by decide, by decide⟩

/-- C1 (amended): every run of the remote HTTP adapter's `load` issues a single
unpaginated GET, and whatever snapshot it produces consists of exactly one
record per decoded item of the first response page, in order; items on any
further page are never loaded. -/
theorem c1_first_page_only (pages : List DT.Page) (snap : List DT.VLANModel)
    (h : DT.load pages = Except.ok snap) :
    snap = ((pages.headD DT.emptyPage).results).map DT.loadItem := by
  have := addAll_ok_shape (DT.get_api_data pages) [] snap h
  simpa [DT.get_api_data] using this

/-- C1 witness: the amended theorem applied to the concrete two-page collection. -/
theorem c1_first_page_only_witness :
    [DT.loadItem exItem1] = ((exPages.headD DT.emptyPage).results).map DT.loadItem :=
  c1_first_page_only exPages [DT.loadItem exItem1] rfl

/-- C3 counterexample: the remote answers 503 (service unavailable, the claim's
transient class); `post` issues exactly one request and raises the failure at
once — there is no second attempt and no backoff. -/
theorem c3_counterexample :
    (DT.post "https://10.1.1.1" "tok" "/api/ipam/vlans/" [] (fun _ => 503)).1.length = 1 ∧
    (DT.post "https://10.1.1.1" "tok" "/api/ipam/vlans/" [] (fun _ => 503)).2 =
      Except.error 503 := by
  exact ⟨rfl, rfl⟩

/-- C3 (amended): every apply-time remote failure, transient or permanent alike,
is raised after exactly one attempt: `post`, `patch` and `delete` each issue a
single request, succeed exactly when the single response's status is outside
400–599, and perform no retry, backoff, or transient/permanent classification. -/
theorem c3_no_retry (url token path : String) (data : List (String × JValue))
    (server : HttpRequest → Nat) :
    (DT.post url token path data server).1.length = 1 ∧
    (DT.patch url token path data server).1.length = 1 ∧
    (DT.delete url token path server).1.length = 1 ∧
    ((DT.post url token path data server).2 = Except.ok () ↔
      ¬(400 ≤ server (DT.postRequest url token path data) ∧
        server (DT.postRequest url token path data) < 600)) ∧
    ((DT.patch url token path data server).2 = Except.ok () ↔
      ¬(400 ≤ server (DT.patchRequest url token path data) ∧
        server (DT.patchRequest url token path data) < 600)) ∧
    ((DT.delete url token path server).2 = Except.ok () ↔
      ¬(400 ≤ server (DT.deleteRequest url token path) ∧
        server (DT.deleteRequest url token path) < 600)) := by
  refine ⟨rfl, rfl, rfl, ?_, ?_, ?_⟩ <;>
    · simp only [DT.post, DT.patch, DT.delete, raise_for_status]
      split <;> simp_all

/-- C3 witness: the amended theorem applied at a concrete configuration where
the remote answers 404 (permanent) to every request. -/
theorem c3_no_retry_witness :
    (DT.post "https://10.1.1.1" "tok" "/api/ipam/vlans/" [] (fun _ => 404)).1.length = 1 ∧
    (DT.patch "https://10.1.1.1" "tok" "/api/ipam/vlans/" [] (fun _ => 404)).1.length = 1 ∧
    (DT.delete "https://10.1.1.1" "tok" "/api/ipam/vlans/" (fun _ => 404)).1.length = 1 ∧
    ((DT.post "https://10.1.1.1" "tok" "/api/ipam/vlans/" [] (fun _ => 404)).2 = Except.ok () ↔
      ¬(400 ≤ (fun _ => 404 : HttpRequest → Nat)
          (DT.postRequest "https://10.1.1.1" "tok" "/api/ipam/vlans/" []) ∧
        (fun _ => 404 : HttpRequest → Nat)
          (DT.postRequest "https://10.1.1.1" "tok" "/api/ipam/vlans/" []) < 600)) ∧
    ((DT.patch "https://10.1.1.1" "tok" "/api/ipam/vlans/" [] (fun _ => 404)).2 = Except.ok () ↔
      ¬(400 ≤ (fun _ => 404 : HttpRequest → Nat)
          (DT.patchRequest "https://10.1.1.1" "tok" "/api/ipam/vlans/" []) ∧
        (fun _ => 404 : HttpRequest → Nat)
          (DT.patchRequest "https://10.1.1.1" "tok" "/api/ipam/vlans/" []) < 600)) ∧
    ((DT.delete "https://10.1.1.1" "tok" "/api/ipam/vlans/" (fun _ => 404)).2 = Except.ok () ↔
      ¬(400 ≤ (fun _ => 404 : HttpRequest → Nat)
          (DT.deleteRequest "https://10.1.1.1" "tok" "/api/ipam/vlans/") ∧
        (fun _ => 404 : HttpRequest → Nat)
          (DT.deleteRequest "https://10.1.1.1" "tok" "/api/ipam/vlans/") < 600)) :=
  c3_no_retry "https://10.1.1.1" "tok" "/api/ipam/vlans/" [] (fun _ => 404)

/-- C5 counterexample: with the job form's default configuration, the GET, POST,
PATCH and DELETE requests of the data-target adapter, and the pynetbox session
of the data-source job, all have TLS certificate verification disabled — it is
the unconditional behaviour, not an explicit opt-in. -/
theorem c5_counterexample :
    (DT.getRequest "https://10.1.1.1" defaultToken).verify = false ∧
    (DT.postRequest "https://10.1.1.1" defaultToken "/api/ipam/vlans/" []).verify = false ∧
    (DT.patchRequest "https://10.1.1.1" defaultToken "/api/ipam/vlans/None/" []).verify = false ∧
    (DT.deleteRequest "https://10.1.1.1" defaultToken "/api/ipam/vlans/None/").verify = false ∧
    ES.init_api.verify = false := by
  exact ⟨rfl, rfl, rfl, rfl, rfl⟩

/-- C5 (amended): every HTTP request carries the token in an `Authorization`
header, but TLS certificate verification is unconditionally disabled:
`verify=False` is hardcoded at every call site of the data-target adapter (for
any url, token, path and body), and the data-source job sets
`http_session.verify = False`; no configuration enables verification. -/
theorem c5_token_but_no_tls_verify (url token path : String)
    (data : List (String × JValue)) :
    (("Authorization", "Token " ++ token) ∈ (DT.getRequest url token).headers ∧
      (DT.getRequest url token).verify = false) ∧
    (("Authorization", "Token " ++ token) ∈ (DT.postRequest url token path data).headers ∧
      (DT.postRequest url token path data).verify = false) ∧
    (("Authorization", "Token " ++ token) ∈ (DT.patchRequest url token path data).headers ∧
      (DT.patchRequest url token path data).verify = false) ∧
    (("Authorization", "Token " ++ token) ∈ (DT.deleteRequest url token path).headers ∧
      (DT.deleteRequest url token path).verify = false) ∧
    ES.init_api.verify = false := by
  refine ⟨⟨?_, rfl⟩, ⟨?_, rfl⟩, ⟨?_, rfl⟩, ⟨?_, rfl⟩, rfl⟩ <;>
    simp [DT.getRequest, DT.postRequest, DT.patchRequest, DT.deleteRequest, DT.apiHeaders]

/-- C7: the PATCH body built by `VLANRemoteModel.update` holds exactly the
attribute fields reported as changed — `description` and `status` are present
precisely when the corresponding key is in `attrs`, carrying the new value, and
no identifier field (`vid`, `name`, `group__name`) ever appears. -/
theorem c7_patch_body_only_changed (ua : DT.UpdateAttrs) :
    (∀ kv ∈ DT.VLANRemoteModel.updateBody ua, kv.1 = "description" ∨ kv.1 = "status") ∧
    lookupKey "vid" (DT.VLANRemoteModel.updateBody ua) = none ∧
    lookupKey "name" (DT.VLANRemoteModel.updateBody ua) = none ∧
    lookupKey "group__name" (DT.VLANRemoteModel.updateBody ua) = none ∧
    lookupKey "description" (DT.VLANRemoteModel.updateBody ua) = ua.description.map jOpt ∧
    lookupKey "status" (DT.VLANRemoteModel.updateBody ua) = ua.status__name.map JValue.str := by
  obtain ⟨d, s⟩ := ua
  cases d <;> cases s <;>
    simp [DT.VLANRemoteModel.updateBody, lookupKey]

/-- C7 witness: the theorem applied to a changed-attributes dict holding both
attribute fields. -/
theorem c7_patch_body_only_changed_witness :
    (∀ kv ∈ DT.VLANRemoteModel.updateBody
        { description := some (some "new"), status__name := some "Active" },
      kv.1 = "description" ∨ kv.1 = "status") ∧
    lookupKey "vid" (DT.VLANRemoteModel.updateBody
      { description := some (some "new"), status__name := some "Active" }) = none ∧
    lookupKey "name" (DT.VLANRemoteModel.updateBody
      { description := some (some "new"), status__name := some "Active" }) = none ∧
    lookupKey "group__name" (DT.VLANRemoteModel.updateBody
      { description := some (some "new"), status__name := some "Active" }) = none ∧
    lookupKey "description" (DT.VLANRemoteModel.updateBody
      { description := some (some "new"), status__name := some "Active" }) =
      (some (some "new") : Option (Option String)).map jOpt ∧
    lookupKey "status" (DT.VLANRemoteModel.updateBody
      { description := some (some "new"), status__name := some "Active" }) =
      (some "Active" : Option String).map JValue.str :=
  c7_patch_body_only_changed { description := some (some "new"), status__name := some "Active" }

/-- C9: the data-target load sets `status__name` to the constant `"active"` for
every decoded item, whatever status the remote reported; the status sent on
create is the source value lowercased, while the status sent on update is the
source value unmodified. -/
theorem c9_status_constant_load_lower_create (item : DT.Item) (ids : DT.CreateIds)
    (ca : DT.CreateAttrs) (ua : DT.UpdateAttrs) (s : String)
    (hs : ua.status__name = some s) :
    (DT.loadItem item).status__name = "active" ∧
    lookupKey "status" (DT.VLANRemoteModel.createBody ids ca) =
      some (JValue.str ca.status__name.toLower) ∧
    lookupKey "status" (DT.VLANRemoteModel.updateBody ua) = some (JValue.str s) := by
  obtain ⟨d, st⟩ := ua
  cases hs
  refine ⟨rfl, ?_, ?_⟩
  · simp [DT.VLANRemoteModel.createBody, lookupKey]
  · cases d <;> simp [DT.VLANRemoteModel.updateBody, lookupKey]

/-- C9 witness: a remote item whose wire status is `"reserved"` still loads as
`"active"`; create lowercases `"Active"`; update forwards `"Active"` verbatim. -/
theorem c9_status_constant_load_lower_create_witness :
    (DT.loadItem exItem1).status__name = "active" ∧
    lookupKey "status" (DT.VLANRemoteModel.createBody
      { vid := 10, name := "ten", vlan_group__name := none }
      { status__name := "Active", description := some "x" }) =
      some (JValue.str ("Active".toLower)) ∧
    lookupKey "status" (DT.VLANRemoteModel.updateBody
      { description := none, status__name := some "Active" }) =
      some (JValue.str "Active") :=
  c9_status_constant_load_lower_create exItem1
    { vid := 10, name := "ten", vlan_group__name := none }
    { status__name := "Active", description := some "x" }
    { description := none, status__name := some "Active" } "Active" rfl

/-- C6: in both remote adapters' loads, an item without a group resolves the
group field to the declared default (`None`) instead of failing; the default is
the same value in the source and target models; and an attribute that is absent
(equal to the default) on both sides is not reported as changed by the
attribute comparison. -/
theorem c6_default_stability (v : ES.RemoteVlan) (it : DT.Item)
    (src tgt : DT.VLANModel)
    (hv : v.group = none) (hit : it.group = none)
    (hs : src.description = none) (ht : tgt.description = none) :
    (ES.loadVlan v).group__name = ES.VLANModel.default_group__name ∧
    (DT.loadItem it).vlan_group__name = DT.VLANModel.default_vlan_group__name ∧
    ES.VLANModel.default_group__name = DT.VLANModel.default_vlan_group__name ∧
    "description" ∉ DT.changedAttrs src tgt := by
  refine ⟨?_, ?_, rfl, ?_⟩
  · simp [ES.loadVlan, hv, ES.VLANModel.default_group__name]
  · simp [DT.loadItem, hit, DT.VLANModel.default_vlan_group__name]
  · by_cases hst : src.status__name = tgt.status__name <;>
      simp [DT.changedAttrs, hs, ht, hst]

/-- C6 witness: the theorem applied to a concrete groupless pynetbox VLAN, a
concrete groupless remote item, and records whose descriptions are absent on
both sides. -/
theorem c6_default_stability_witness :
    (ES.loadVlan { vid := 10, group := none, description := some "x" }).group__name =
      ES.VLANModel.default_group__name ∧
    (DT.loadItem exItem1).vlan_group__name = DT.VLANModel.default_vlan_group__name ∧
    ES.VLANModel.default_group__name = DT.VLANModel.default_vlan_group__name ∧
    "description" ∉ DT.changedAttrs
      { vid := 10, name := "ten", status__name := "active", description := none }
      { vid := 10, name := "ten", status__name := "active", description := none } :=
  c6_default_stability { vid := 10, group := none, description := some "x" }
    exItem1
    { vid := 10, name := "ten", status__name := "active", description := none }
    { vid := 10, name := "ten", status__name := "active", description := none }
    rfl rfl rfl rfl

/-- Concrete update operation A for the C2 scenario. -/
def exOpA : Apply.SyncOp :=
  { key := (10, "ten", none), kind := Apply.OpKind.updateOp,
    attrs := { description := some (some "x") } }

/-- Concrete update operation B for the C2 scenario. -/
def exOpB : Apply.SyncOp :=
  { key := (20, "twenty", none), kind := Apply.OpKind.updateOp,
    attrs := { description := some (some "y") } }

/-- A remote that rejects A permanently (422) and accepts everything else. -/
def exServer : Apply.SyncOp → Nat := fun op => if op = exOpA then 422 else 200

/-- C2: each operation is applied independently — for two updates where A fails
permanently and B succeeds, the failures list is exactly A's failure and B is
applied to the target; and in general every operation of the ChangeSet is
attempted, ending up either applied or recorded as a failure. -/
theorem c2_failure_isolation (A B : Apply.SyncOp) (server : Apply.SyncOp → Nat)
    (hA : 400 ≤ server A ∧ server A < 600)
    (hB : ¬(400 ≤ server B ∧ server B < 600)) :
    Apply.applyChangeSet server [A, B] =
      ([B], [{ key := A.key, kind := A.kind, status := server A }]) ∧
    ∀ ops : List Apply.SyncOp,
      (Apply.applyChangeSet server ops).1.length +
        (Apply.applyChangeSet server ops).2.length = ops.length := by
  constructor
  · simp [Apply.applyChangeSet, raise_for_status, hA, hB]
  · intro ops
    induction ops with
    | nil => rfl
    | cons op rest ih =>
      simp only [Apply.applyChangeSet]
      cases raise_for_status (server op) <;> simp <;> omega

/-- C2 witness: the isolation theorem applied to the concrete scenario — the
remote answers 422 to A's PATCH and 200 to B's; A alone is recorded as failed
and B alone is applied. -/
theorem c2_failure_isolation_witness :
    Apply.applyChangeSet exServer [exOpA, exOpB] =
      ([exOpB], [{ key := exOpA.key, kind := exOpA.kind, status := exServer exOpA }]) :=
  (c2_failure_isolation exOpA exOpB exServer (by decide) (by decide)).1

/-- C4 (code bug): after `VLANRemoteModel.create` issues the POST, the handle
the remote returned (`"123"`) is cached nowhere; and on a record produced by
the remote adapter's `load`, `pk` is `None`, so the update/delete URL of the
same identity key addresses `/api/ipam/vlans/None/` instead of reusing the
returned handle. -/
theorem c4_handle_not_cached :
    (DT.VLANRemoteModel.create "https://10.1.1.1" defaultToken
        { vid := 10, name := "ten", vlan_group__name := none }
        { status__name := "Active", description := some "x" }
        DT.emptyPass { id := "123" }).handleCache = [] ∧
    (DT.loadItem exItem1).pk = none ∧
    DT.VLANRemoteModel.crudPath (DT.loadItem exItem1).pk = "/api/ipam/vlans/None/" ∧
    DT.VLANRemoteModel.crudPath (DT.loadItem exItem1).pk ≠ "/api/ipam/vlans/123/" := by
  refine ⟨rfl, rfl, rfl, by decide⟩

/-- Shared helper: `find?` skips a first block in which it finds nothing. -/
theorem find?_append_of_none {α : Type} {p : α → Bool} {l1 l2 : List α}
    (h : l1.find? p = none) : (l1 ++ l2).find? p = l2.find? p := by
  induction l1 with
  | nil => simp
  | cons a l ih =>
    cases hpa : p a with
    | true => simp [List.find?, hpa] at h
    | false =>
      simp only [List.find?, hpa] at h
      simp only [List.cons_append, List.find?, hpa]
      exact ih h

/-- Shared helper: `assign_to_device` never touches the software rows. -/
theorem assign_to_device_softwares (db : GV.NautobotDB) (a b : Nat) :
    (GV.assign_to_device db a b).softwares = db.softwares := by
  unfold GV.assign_to_device
  split <;> rfl

/-- Shared helper: after `assign_to_device`, the association exists. -/
theorem assign_to_device_mem (db : GV.NautobotDB) (a b : Nat) :
    (a, b) ∈ (GV.assign_to_device db a b).assocs := by
  unfold GV.assign_to_device
  split
  · assumption
  · simp

/-- C8: the recording step is an upsert — when a software row with the parsed
version already exists, `import_to_nautobot` reuses it and changes nothing; and
running the whole recording step twice for the same device and parsed version
is the same as running it once: no duplicate row and no duplicate association
is created. -/
theorem c8_record_upsert (db : GV.NautobotDB) (pv p : String) (dev : Nat) :
    ((db.softwares.any (fun s => s.version == pv)) = true →
      (GV.import_to_nautobot db pv p).1 = db) ∧
    GV.recordVersion (GV.recordVersion db pv p dev) pv p dev =
      GV.recordVersion db pv p dev := by
  constructor
  · intro h
    unfold GV.import_to_nautobot
    cases hf : db.softwares.find? (fun s => s.version == pv) with
    | some s => rfl
    | none =>
      rw [List.find?_eq_none] at hf
      rw [List.any_eq_true] at h
      obtain ⟨x, hx, hvx⟩ := h
      exact absurd hvx (by simpa using hf x hx)
  · cases hf : db.softwares.find? (fun s => s.version == pv) with
    | some s =>
      have h1 : GV.import_to_nautobot db pv p = (db, s.id) := by
        unfold GV.import_to_nautobot
        rw [hf]
      have hrec : GV.recordVersion db pv p dev = GV.assign_to_device db s.id dev := by
        unfold GV.recordVersion
        rw [h1]
      set db1 := GV.assign_to_device db s.id dev with hdb1
      have hsw : db1.softwares = db.softwares := assign_to_device_softwares db s.id dev
      have h2 : GV.import_to_nautobot db1 pv p = (db1, s.id) := by
        unfold GV.import_to_nautobot
        rw [hsw, hf]
      have hmem : (s.id, dev) ∈ db1.assocs := assign_to_device_mem db s.id dev
      have h3 : GV.assign_to_device db1 s.id dev = db1 := by
        unfold GV.assign_to_device
        rw [if_pos hmem]
      rw [hrec]
      show GV.recordVersion db1 pv p dev = db1
      unfold GV.recordVersion
      rw [h2]
      exact h3
    | none =>
      have h1 : GV.import_to_nautobot db pv p =
          ({ softwares := db.softwares ++
               [{ id := db.nextId, version := pv, device_platform := p }],
             nextId := db.nextId + 1,
             assocs := db.assocs }, db.nextId) := by
        unfold GV.import_to_nautobot
        rw [hf]
      set db2 := ({ softwares := db.softwares ++
                      [{ id := db.nextId, version := pv, device_platform := p }],
                    nextId := db.nextId + 1,
                    assocs := db.assocs } : GV.NautobotDB) with hdb2
      have hrec : GV.recordVersion db pv p dev = GV.assign_to_device db2 db.nextId dev := by
        unfold GV.recordVersion
        rw [h1]
      set db3 := GV.assign_to_device db2 db.nextId dev with hdb3
      have hsw : db3.softwares = db2.softwares := assign_to_device_softwares db2 db.nextId dev
      have hfind3 : db3.softwares.find? (fun s => s.version == pv) =
          some { id := db.nextId, version := pv, device_platform := p } := by
        rw [hsw]
        have hdb2sw : db2.softwares = db.softwares ++
            [({ id := db.nextId, version := pv, device_platform := p } : GV.SoftwareLCM)] := rfl
        rw [hdb2sw, find?_append_of_none hf]
        simp [List.find?]
      have h2 : GV.import_to_nautobot db3 pv p = (db3, db.nextId) := by
        unfold GV.import_to_nautobot
        rw [hfind3]
      have hmem : (db.nextId, dev) ∈ db3.assocs := assign_to_device_mem db2 db.nextId dev
      have h3 : GV.assign_to_device db3 db.nextId dev = db3 := by
        unfold GV.assign_to_device
        rw [if_pos hmem]
      rw [hrec]
      show GV.recordVersion db3 pv p dev = db3
      unfold GV.recordVersion
      rw [h2]
      exact h3

/-- A database that already holds a software row for version `"1.0"` and no
associations. -/
def exDb : GV.NautobotDB :=
  { softwares := [{ id := 1, version := "1.0", device_platform := "cisco_ios" }],
    nextId := 2, assocs := [] }

/-- C8 witness: on a database that already holds the parsed version,
`import_to_nautobot` changes nothing, and the recording step is idempotent. -/
theorem c8_record_upsert_witness :
    ((exDb.softwares.any (fun s => s.version == "1.0")) = true →
      (GV.import_to_nautobot exDb "1.0" "cisco_ios").1 = exDb) ∧
    GV.recordVersion (GV.recordVersion exDb "1.0" "cisco_ios" 7) "1.0" "cisco_ios" 7 =
      GV.recordVersion exDb "1.0" "cisco_ios" 7 :=
  c8_record_upsert exDb "1.0" "cisco_ios" 7

/-- Shared helper: one device's processing is its db-independent outcome plus,
on success, the recording step. -/
theorem processDevice_deviceResult (db : GV.NautobotDB) (d : GV.Device) :
    GV.processDevice db d =
      match GV.deviceResult d with
      | Except.ok v => Except.ok (GV.recordVersion db v d.platform d.id)
      | Except.error e => Except.error e := by
  unfold GV.processDevice GV.deviceResult
  cases hc : GV.checkPlatform d with
  | error e => rfl
  | ok u =>
    cases hg : GV.get_version d with
    | error e => rfl
    | ok raw =>
      cases hp : GV.parse_version d.platform raw with
      | error e => simp [hp]
      | ok v => simp [hp]

/-- C10: the collector processes the selected devices strictly sequentially in
order; when every device before `bad` succeeds and `bad` fails (unsupported
platform, unreachable address, or unparsable output), the run aborts with
`bad`'s exception, the database reflects exactly the devices before `bad`, and
no device after `bad` contributes anything. -/
theorem c10_sequential_abort (pre : List GV.Device) (bad : GV.Device)
    (post : List GV.Device) (db : GV.NautobotDB)
    (hbad : GV.isOkE (GV.deviceResult bad) = false) :
    (∀ d ∈ pre, GV.isOkE (GV.deviceResult d) = true) →
    GV.runJob db (pre ++ bad :: post) =
      Except.error (pre.foldl GV.applyDevice db, GV.errMsgOf bad) := by
  induction pre generalizing db with
  | nil =>
    intro _
    simp only [List.nil_append, List.foldl_nil]
    cases hb : GV.deviceResult bad with
    | ok v => rw [hb] at hbad; simp [GV.isOkE] at hbad
    | error e =>
      have hp : GV.processDevice db bad = Except.error e := by
        rw [processDevice_deviceResult, hb]
      have hm : GV.errMsgOf bad = e := by
        unfold GV.errMsgOf
        rw [hb]
      rw [hm]
      simp only [GV.runJob, hp]
  | cons d pre ih =>
    intro hpre
    have hd : GV.isOkE (GV.deviceResult d) = true := hpre d (by simp)
    cases hdr : GV.deviceResult d with
    | error e => rw [hdr] at hd; simp [GV.isOkE] at hd
    | ok v =>
      have hp : GV.processDevice db d =
          Except.ok (GV.recordVersion db v d.platform d.id) := by
        rw [processDevice_deviceResult, hdr]
      have happ : GV.applyDevice db d = GV.recordVersion db v d.platform d.id := by
        unfold GV.applyDevice
        rw [hdr]
      have hpre2 : ∀ x ∈ pre, GV.isOkE (GV.deviceResult x) = true := by
        intro x hx
        exact hpre x (by simp [hx])
      calc GV.runJob db ((d :: pre) ++ bad :: post)
          = GV.runJob (GV.recordVersion db v d.platform d.id) (pre ++ bad :: post) := by
            simp only [List.cons_append, GV.runJob, hp]
            rfl
        _ = Except.error
              (pre.foldl GV.applyDevice (GV.recordVersion db v d.platform d.id),
               GV.errMsgOf bad) :=
            ih (GV.recordVersion db v d.platform d.id) hpre2
        _ = Except.error ((d :: pre).foldl GV.applyDevice db, GV.errMsgOf bad) := by
            rw [List.foldl_cons, happ]

/-- A supported, reachable IOS device whose show-version output parses. -/
def exGoodDev : GV.Device :=
  { id := 1, name := "rtr1", platform := "cisco_ios", ip := "192.0.2.1",
    reachable := true,
    output := "Cisco IOS Software, C2951 Software (C2951-UNIVERSALK9-M), Version 15.2(4)M7, RELEASE SOFTWARE (fc2)" }

/-- A device with an unsupported platform: its construction raises. -/
def exBadDev : GV.Device :=
  { id := 2, name := "fw1", platform := "juniper_junos", ip := "192.0.2.2",
    reachable := true, output := "Junos: 21.4R3" }

/-- A healthy device selected after the failing one. -/
def exPostDev : GV.Device :=
  { id := 3, name := "acc1", platform := "keymile_nos", ip := "192.0.2.3",
    reachable := true, output := "NOS version 7.2.1 build 12" }

/-- An empty starting database for the collector run. -/
def exDb10 : GV.NautobotDB := { softwares := [], nextId := 0, assocs := [] }

/-- C10 witness: the abort theorem applied to a concrete selection — the good
device is recorded, the unsupported device aborts the run, and the device
selected after it contributes nothing. -/
theorem c10_sequential_abort_witness :
    GV.runJob exDb10 ([exGoodDev] ++ exBadDev :: [exPostDev]) =
      Except.error (([exGoodDev]).foldl GV.applyDevice exDb10, GV.errMsgOf exBadDev) :=
  c10_sequential_abort [exGoodDev] exBadDev [exPostDev] exDb10 (by decide) (by decide)
